import Mathlib

/-!
A shallow embedding of `ReportEngine/utils/dependency_check.py`.

The module probes whether the Pango native library needed for PDF export is
loadable.  The outcome of the runtime load attempt (which in Python is driven
by exceptions) is modelled by the sum type `LoadOutcome`; the host operating
system identifier returned by `platform.system()` is passed as an explicit
string argument; the loguru logger is modelled by the list of log records a
call emits.
-/

namespace DependencyCheck

/-- The outcome of attempting `from weasyprint import HTML`,
`from weasyprint.text.ffi import ffi, pango` and `pango.pango_version()`:
either everything succeeds, or an `OSError`, an `ImportError`, or some other
exception is raised, carrying its message text. -/
inductive LoadOutcome where
  | success
  | osError (msg : String)
  | importError (msg : String)
  | otherError (msg : String)

/-- Whether `needle` is a leading segment of `hay` (character lists). -/
def listIsPre : List Char → List Char → Bool
  | [], _ => true
  | _ :: _, [] => false
  | a :: as, b :: bs => a == b && listIsPre as bs

/-- Whether `needle` occurs contiguously somewhere in the haystack.  This is
the semantics of Python\x27s `sub in s` substring test. -/
def listInf (needle : List Char) : List Char → Bool
  | [] => listIsPre needle []
  | h :: t => listIsPre needle (h :: t) || listInf needle t

/-- Python\x27s `sub in s` substring containment test. -/
def strContainsSub (s sub : String) : Bool := listInf sub.data s.data

/-- Python\x27s `str.lower()`, restricted to the ASCII range actually relevant
to the three matched library-name fragments. -/
def strLower (s : String) : String := ⟨s.data.map Char.toLower⟩

/-- The macOS instruction block of `_get_platform_specific_instructions`. -/
def macosInstructions : String :=
  "\u2551  🍎 macOS 系统解决方案：                                       \u2551\n\u2551                                                                \u2551\n\u2551  1. 安装系统依赖：                                             \u2551\n\u2551     brew install pango gdk-pixbuf libffi                       \u2551\n\u2551                                                                \u2551\n\u2551  2. 设置环境变量（重要！）：                                   \u2551\n\u2551     export DYLD_LIBRARY_PATH=/opt/homebrew/lib:$DYLD_LIBRARY_PATH \u2551\n\u2551                                                                \u2551\n\u2551  3. 永久生效（推荐）：                                         \u2551\n\u2551     echo \x27export DYLD_LIBRARY_PATH=/opt/homebrew/lib:$DYLD_LIBRARY_PATH\x27 >> ~/.zshrc \u2551\n\u2551     source ~/.zshrc                                            \u2551\n"

/-- The Linux instruction block of `_get_platform_specific_instructions`. -/
def linuxInstructions : String :=
  "\u2551  🐧 Linux 系统解决方案：                                       \u2551\n\u2551                                                                \u2551\n\u2551  Ubuntu/Debian:                                                \u2551\n\u2551    sudo apt-get install libpango-1.0-0 libpangoft2-1.0-0 \\    \u2551\n\u2551                         libgdk-pixbuf2.0-0 libffi-dev libcairo2 \u2551\n\u2551                                                                \u2551\n\u2551  CentOS/RHEL:                                                  \u2551\n\u2551    sudo yum install pango gdk-pixbuf2 libffi-devel cairo       \u2551\n"

/-- The Windows instruction block of `_get_platform_specific_instructions`. -/
def windowsInstructions : String :=
  "\u2551  🪟 Windows 系统解决方案：                                     \u2551\n\u2551                                                                \u2551\n\u2551  下载并安装 GTK3 Runtime：                                     \u2551\n\u2551  https://github.com/tschoonj/GTK-for-Windows-Runtime-Environment-Installer/releases \u2551\n"

/-- The fallback instruction block of `_get_platform_specific_instructions`. -/
def genericInstructions : String :=
  "\u2551  请查看 README.md 了解您系统的安装方法                        \u2551\n"

/-- `_get_platform_specific_instructions` (lines 10-54): branch on the
`platform.system()` identifier into one of four fixed instruction blocks. -/
def _get_platform_specific_instructions (system : String) : String :=
  if system = "Darwin" then macosInstructions
  else if system = "Linux" then linuxInstructions
  else if system = "Windows" then windowsInstructions
  else genericInstructions

/-- The success message returned when the Pango probe passes (line 72). -/
def successMessage : String := "✓ Pango 依赖检测通过，PDF 导出功能可用"

/-- The lines of the boxed remediation message preceding the interpolated
platform instruction block (lines 80-84). -/
def pangoBoxHeader : String :=
  "\u2554\u2550\u2550\u2550\u2550\u2550\u2550\u2550\u2550\u2550\u2550\u2550\u2550\u2550\u2550\u2550\u2550\u2550\u2550\u2550\u2550\u2550\u2550\u2550\u2550\u2550\u2550\u2550\u2550\u2550\u2550\u2550\u2550\u2550\u2550\u2550\u2550\u2550\u2550\u2550\u2550\u2550\u2550\u2550\u2550\u2550\u2550\u2550\u2550\u2550\u2550\u2550\u2550\u2550\u2550\u2550\u2550\u2550\u2550\u2550\u2550\u2550\u2550\u2550\u2550\u2557\n\u2551  ⚠️  PDF 导出依赖缺失                                          \u2551\n\u2551                                                                \u2551\n\u2551  📄 PDF 导出功能将不可用（其他功能不受影响）                  \u2551\n\u2551                                                                \u2551\n"

/-- The lines of the boxed remediation message following the interpolated
platform instruction block (lines 86-88). -/
def pangoBoxFooter : String :=
  "\u2551                                                                \u2551\n\u2551  📖 完整文档：根目录 README.md 第393行「PDF 导出依赖」        \u2551\n\u255A\u2550\u2550\u2550\u2550\u2550\u2550\u2550\u2550\u2550\u2550\u2550\u2550\u2550\u2550\u2550\u2550\u2550\u2550\u2550\u2550\u2550\u2550\u2550\u2550\u2550\u2550\u2550\u2550\u2550\u2550\u2550\u2550\u2550\u2550\u2550\u2550\u2550\u2550\u2550\u2550\u2550\u2550\u2550\u2550\u2550\u2550\u2550\u2550\u2550\u2550\u2550\u2550\u2550\u2550\u2550\u2550\u2550\u2550\u2550\u2550\u2550\u2550\u2550\u2550\u255D"

/-- The f-string head of the unmatched-OSError message (line 90). -/
def loadFailMsgHead : String := "⚠ PDF 依赖加载失败: "

/-- The fixed ImportError message (lines 93-96). -/
def weasyprintMissingMessage : String := "⚠ WeasyPrint 未安装\n解决方法: pip install weasyprint"

/-- The f-string head of the catch-all failure message (line 99). -/
def unknownFailMsgHead : String := "⚠ PDF 依赖检测失败: "

/-- `check_pango_available` (lines 57-99).  The try-body outcome is the
`LoadOutcome` argument; each `except` clause becomes a match arm. -/
def check_pango_available (system : String) (outcome : LoadOutcome) :
    Bool × String :=
  match outcome with
  | .success => (true, successMessage)
  | .osError e =>
      let error_msg := e
      let platform_instructions := _get_platform_specific_instructions system
      if strContainsSub (strLower error_msg) "gobject"
          || strContainsSub (strLower error_msg) "pango"
          || strContainsSub (strLower error_msg) "gdk" then
        (false, pangoBoxHeader ++ platform_instructions ++ pangoBoxFooter)
      else
        (false, loadFailMsgHead ++ error_msg)
  | .importError _ => (false, weasyprintMissingMessage)
  | .otherError e => (false, unknownFailMsgHead ++ e)

/-- Severity levels used by `log_dependency_status`. -/
inductive LogLevel where
  | success
  | warning
  | info
deriving DecidableEq

/-- One record emitted to the logging sink. -/
structure LogRecord where
  level : LogLevel
  msg : String

/-- First fixed informational log line of `log_dependency_status` (line 112). -/
def pdfTipMessage : String := "💡 提示：PDF 导出功能需要 Pango 库支持，但不影响系统其他功能的正常使用"

/-- Second fixed informational log line of `log_dependency_status` (line 113). -/
def readmeTipMessage : String := "📚 安装说明请参考：根目录下的 README.md 文件"

/-- `log_dependency_status` (lines 102-115): call the probe, emit the log
records, and return the availability boolean.  The returned list holds the
records emitted in order. -/
def log_dependency_status (system : String) (outcome : LoadOutcome) :
    Bool × List LogRecord :=
  let r := check_pango_available system outcome
  if r.1 then
    (r.1, [⟨LogLevel.success, r.2⟩])
  else
    (r.1, [⟨LogLevel.warning, r.2⟩,
           ⟨LogLevel.info, pdfTipMessage⟩,
           ⟨LogLevel.info, readmeTipMessage⟩])

/-- The `__main__` block (lines 118-122): print the probe message and exit
with status 0 when available, 1 otherwise.  The result pair holds the printed
text and the exit status. -/
def moduleMain (system : String) (outcome : LoadOutcome) : String × Nat :=
  let r := check_pango_available system outcome
  (r.2, if r.1 then 0 else 1)

/-! Helper lemmas about substring containment and string heads. -/

/-- Appending string data is list append. -/
theorem strData_append (a b : String) : (a ++ b).data = a.data ++ b.data := by
  cases a
  cases b
  rfl

/-- A list is a leading segment of itself followed by anything. -/
theorem listIsPre_self_append (n t : List Char) : listIsPre n (n ++ t) = true := by
  induction n with
  | nil => rfl
  | cons a as ih => simp [listIsPre, ih]

/-- A leading segment stays a leading segment after extending the haystack. -/
theorem listIsPre_extend (n : List Char) :
    ∀ l b : List Char, listIsPre n l = true → listIsPre n (l ++ b) = true := by
  induction n with
  | nil => intro l b _; rfl
  | cons a as ih =>
    intro l b h
    cases l with
    | nil => simp [listIsPre] at h
    | cons x xs =>
      simp [listIsPre] at h ⊢
      exact ⟨h.1, ih xs b h.2⟩

/-- The empty needle occurs in every haystack. -/
theorem listInf_nil (l : List Char) : listInf [] l = true := by
  induction l with
  | nil => rfl
  | cons h t ih => simp [listInf, listIsPre, ih]

/-- A needle occurs at the front of itself followed by anything. -/
theorem listInf_here (n t : List Char) : listInf n (n ++ t) = true := by
  cases n with
  | nil => simpa using listInf_nil t
  | cons a as =>
    have h := listIsPre_self_append (a :: as) t
    simp [listInf]
    exact Or.inl (by simpa using h)

/-- An occurrence survives prepending to the haystack. -/
theorem listInf_extend_left (n c : List Char) (h : listInf n c = true) :
    ∀ a : List Char, listInf n (a ++ c) = true := by
  intro a
  induction a with
  | nil => simpa using h
  | cons x xs ih => simp [listInf, ih]

/-- An occurrence survives appending to the haystack. -/
theorem listInf_extend_right (n : List Char) :
    ∀ l b : List Char, listInf n l = true → listInf n (l ++ b) = true := by
  intro l
  induction l with
  | nil =>
    intro b h
    cases n with
    | nil => simpa using listInf_nil b
    | cons a as => simp [listInf, listIsPre] at h
  | cons x xs ih =>
    intro b h
    simp [listInf] at h ⊢
    cases h with
    | inl hp => exact Or.inl (listIsPre_extend _ _ _ hp)
    | inr hi => exact Or.inr (ih b hi)

/-- Every string contains itself. -/
theorem strContainsSub_self (s : String) : strContainsSub s s = true := by
  have h := listInf_here s.data []
  simpa [strContainsSub] using h

/-- Containment in the left part extends to the appended string. -/
theorem strContainsSub_left (a b x : String) (h : strContainsSub a x = true) :
    strContainsSub (a ++ b) x = true := by
  have h2 := listInf_extend_right x.data a.data b.data h
  simpa [strContainsSub, strData_append] using h2

/-- Containment in the right part extends to the appended string. -/
theorem strContainsSub_right (a b x : String) (h : strContainsSub b x = true) :
    strContainsSub (a ++ b) x = true := by
  have h2 := listInf_extend_left x.data b.data h a.data
  simpa [strContainsSub, strData_append] using h2

/-- The middle factor of a three-way concatenation is contained in it. -/
theorem strContainsSub_middle (a b c : String) :
    strContainsSub (a ++ b ++ c) b = true :=
  strContainsSub_left (a ++ b) c b (strContainsSub_right a b b (strContainsSub_self b))

/-- The first character of a string, when it has one. -/
def strHeadChar (s : String) : Option Char := s.data.head?

/-- Strings with different first characters are different. -/
theorem ne_of_headChar (a b : String) (h : strHeadChar a ≠ strHeadChar b) : a ≠ b :=
  fun he => h (by rw [he])

/-- The first character of an append is that of a nonempty left part. -/
theorem headChar_append (a b : String) (x : Char) (h : strHeadChar a = some x) :
    strHeadChar (a ++ b) = some x := by
  unfold strHeadChar at h ⊢
  rw [strData_append]
  cases hd : a.data with
  | nil => rw [hd] at h; simp at h
  | cons c t =>
    rw [hd] at h
    simpa using h

/-- A string with a first character is nonempty. -/
theorem ne_empty_of_headChar (a : String) (x : Char) (h : strHeadChar a = some x) :
    a ≠ "" := by
  intro he
  rw [he] at h
  simp [strHeadChar] at h

/-- The boxed remediation message starts with the box-drawing corner. -/
theorem boxMessage_headChar (sys : String) :
    strHeadChar (pangoBoxHeader ++ _get_platform_specific_instructions sys
      ++ pangoBoxFooter) = some '\u2554' :=
  headChar_append _ pangoBoxFooter _
    (headChar_append pangoBoxHeader _ _ (by decide))

/-- A string whose first character is not the check mark differs from the
success message. -/
theorem headChar_ne_success (m : String) (x : Char)
    (hm : strHeadChar m = some x) (hx : x ≠ '✓') : m ≠ successMessage := by
  apply ne_of_headChar
  rw [hm]
  have hs : strHeadChar successMessage = some '✓' := by decide
  rw [hs]
  simp [hx]

/-- Claim C1: for every OSError raised during the load attempt whose
lowercased message contains one of the fragments "gobject", "pango" or "gdk",
`check_pango_available` reports unavailable and its boxed message contains
the header, the note that only PDF export is affected, the platform-specific
instruction block, and the README pointer. -/
theorem c1_matched_os_error_box_message (sys e : String)
    (h : strContainsSub (strLower e) "gobject" = true ∨
         strContainsSub (strLower e) "pango" = true ∨
         strContainsSub (strLower e) "gdk" = true) :
    (check_pango_available sys (LoadOutcome.osError e)).1 = false ∧
    strContainsSub (check_pango_available sys (LoadOutcome.osError e)).2
      "PDF 导出依赖缺失" = true ∧
    strContainsSub (check_pango_available sys (LoadOutcome.osError e)).2
      "PDF 导出功能将不可用（其他功能不受影响）" = true ∧
    strContainsSub (check_pango_available sys (LoadOutcome.osError e)).2
      (_get_platform_specific_instructions sys) = true ∧
    strContainsSub (check_pango_available sys (LoadOutcome.osError e)).2
      "README.md" = true := by
  have hmsg : check_pango_available sys (LoadOutcome.osError e) =
      (false, pangoBoxHeader ++ _get_platform_specific_instructions sys
        ++ pangoBoxFooter) := by
    rcases h with h1 | h2 | h3
    · simp [check_pango_available, h1]
    · simp [check_pango_available, h2]
    · simp [check_pango_available, h3]
  rw [hmsg]
  refine ⟨rfl, ?_, ?_, ?_, ?_⟩
  · exact strContainsSub_left _ pangoBoxFooter _
      (strContainsSub_left pangoBoxHeader _ _ (by decide))
  · exact strContainsSub_left _ pangoBoxFooter _
      (strContainsSub_left pangoBoxHeader _ _ (by decide))
  · exact strContainsSub_middle pangoBoxHeader _ pangoBoxFooter
  · exact strContainsSub_right _ pangoBoxFooter _ (by decide)

/-- Witness for claim C1 at a concrete matched OSError on Linux. -/
theorem c1_matched_os_error_box_message_witness :
    (strContainsSub (strLower "Cannot load libPANGO-1.0.so") "gobject" = true ∨
     strContainsSub (strLower "Cannot load libPANGO-1.0.so") "pango" = true ∨
     strContainsSub (strLower "Cannot load libPANGO-1.0.so") "gdk" = true) ∧
    ((check_pango_available "Linux"
        (LoadOutcome.osError "Cannot load libPANGO-1.0.so")).1 = false ∧
     strContainsSub (check_pango_available "Linux"
        (LoadOutcome.osError "Cannot load libPANGO-1.0.so")).2
        "PDF 导出依赖缺失" = true ∧
     strContainsSub (check_pango_available "Linux"
        (LoadOutcome.osError "Cannot load libPANGO-1.0.so")).2
        "PDF 导出功能将不可用（其他功能不受影响）" = true ∧
     strContainsSub (check_pango_available "Linux"
        (LoadOutcome.osError "Cannot load libPANGO-1.0.so")).2
        (_get_platform_specific_instructions "Linux") = true ∧
     strContainsSub (check_pango_available "Linux"
        (LoadOutcome.osError "Cannot load libPANGO-1.0.so")).2
        "README.md" = true) :=
  ⟨Or.inr (Or.inl (by decide)),
   c1_matched_os_error_box_message "Linux" "Cannot load libPANGO-1.0.so"
     (Or.inr (Or.inl (by decide)))⟩

/-- Claim C2: `check_pango_available` never propagates an exception: for every
outcome of the load attempt it returns a (Bool, String) pair. -/
theorem c2_probe_always_returns (sys : String) (o : LoadOutcome) :
    ∃ b : Bool, ∃ msg : String, check_pango_available sys o = (b, msg) :=
  ⟨(check_pango_available sys o).1, (check_pango_available sys o).2, rfl⟩

/-- Claim C3: `_get_platform_specific_instructions` returns exactly one of
four fixed blocks, selected solely by the host OS identifier: the macOS block
for "Darwin", the Linux block for "Linux", the Windows block for "Windows",
and the generic fallback for every other value. -/
theorem c3_platform_instruction_selection :
    _get_platform_specific_instructions "Darwin" = macosInstructions ∧
    _get_platform_specific_instructions "Linux" = linuxInstructions ∧
    _get_platform_specific_instructions "Windows" = windowsInstructions ∧
    ∀ s : String, s ≠ "Darwin" → s ≠ "Linux" → s ≠ "Windows" →
      _get_platform_specific_instructions s = genericInstructions := by
  refine ⟨rfl, rfl, rfl, ?_⟩
  intro s h1 h2 h3
  simp [_get_platform_specific_instructions, h1, h2, h3]

/-- Witness for claim C3 at the concrete unknown OS identifier "FreeBSD". -/
theorem c3_platform_instruction_selection_witness :
    ("FreeBSD" : String) ≠ "Darwin" ∧ ("FreeBSD" : String) ≠ "Linux" ∧
    ("FreeBSD" : String) ≠ "Windows" ∧
    _get_platform_specific_instructions "FreeBSD" = genericInstructions :=
  ⟨by decide, by decide, by decide,
   c3_platform_instruction_selection.2.2.2 "FreeBSD"
     (by decide) (by decide) (by decide)⟩

/-- Claim C4: when the library import and the native version-query call both
succeed, `check_pango_available` returns available and the fixed success
string. -/
theorem c4_success_result (sys : String) :
    check_pango_available sys LoadOutcome.success = (true, successMessage) :=
  rfl

/-- Claim C5: when the import of the wrapping package itself fails,
`check_pango_available` returns unavailable and the fixed one-line message
with the pip install instruction. -/
theorem c5_import_error_result (sys e : String) :
    check_pango_available sys (LoadOutcome.importError e) =
      (false, weasyprintMissingMessage) :=
  rfl

/-- Claim C6: for every OSError whose lowercased message contains none of the
three fragments, `check_pango_available` returns unavailable and a generic
one-line message containing the raw error text verbatim. -/
theorem c6_unmatched_os_error_result (sys e : String)
    (h1 : strContainsSub (strLower e) "gobject" = false)
    (h2 : strContainsSub (strLower e) "pango" = false)
    (h3 : strContainsSub (strLower e) "gdk" = false) :
    check_pango_available sys (LoadOutcome.osError e) =
      (false, loadFailMsgHead ++ e) ∧
    strContainsSub (check_pango_available sys (LoadOutcome.osError e)).2
      e = true := by
  have hmsg : check_pango_available sys (LoadOutcome.osError e) =
      (false, loadFailMsgHead ++ e) := by
    simp [check_pango_available, h1, h2, h3]
  refine ⟨hmsg, ?_⟩
  rw [hmsg]
  exact strContainsSub_right loadFailMsgHead e e (strContainsSub_self e)

/-- Witness for claim C6 at the concrete unmatched OSError "file not found". -/
theorem c6_unmatched_os_error_result_witness :
    strContainsSub (strLower "file not found") "gobject" = false ∧
    strContainsSub (strLower "file not found") "pango" = false ∧
    strContainsSub (strLower "file not found") "gdk" = false ∧
    (check_pango_available "Windows" (LoadOutcome.osError "file not found") =
      (false, loadFailMsgHead ++ "file not found") ∧
     strContainsSub (check_pango_available "Windows"
        (LoadOutcome.osError "file not found")).2 "file not found" = true) :=
  ⟨by decide, by decide, by decide,
   c6_unmatched_os_error_result "Windows" "file not found"
     (by decide) (by decide) (by decide)⟩

/-- Claim C7: `log_dependency_status` returns exactly the availability
boolean produced by `check_pango_available`, unchanged, for every outcome. -/
theorem c7_log_returns_probe_boolean (sys : String) (o : LoadOutcome) :
    (log_dependency_status sys o).1 = (check_pango_available sys o).1 := by
  cases hb : (check_pango_available sys o).1 <;>
    simp [log_dependency_status, hb]

/-- Claim C8: for every probe outcome, `log_dependency_status` emits exactly
one primary record carrying the probe message, at success severity when
available and warning severity otherwise, followed in the unavailable case by
exactly the two fixed info records. -/
theorem c8_log_records_shape (sys : String) (o : LoadOutcome) :
    (log_dependency_status sys o).2 =
      if (check_pango_available sys o).1 then
        [⟨LogLevel.success, (check_pango_available sys o).2⟩]
      else
        [⟨LogLevel.warning, (check_pango_available sys o).2⟩,
         ⟨LogLevel.info, pdfTipMessage⟩,
         ⟨LogLevel.info, readmeTipMessage⟩] := by
  cases hb : (check_pango_available sys o).1 <;>
    simp [log_dependency_status, hb]

/-- Claim C9: run standalone, the module prints the probe message and exits
with status 0 exactly when the probe reports available and status 1
otherwise. -/
theorem c9_main_print_and_exit (sys : String) (o : LoadOutcome) :
    (moduleMain sys o).1 = (check_pango_available sys o).2 ∧
    ((moduleMain sys o).2 = 0 ↔ (check_pango_available sys o).1 = true) ∧
    ((moduleMain sys o).2 = 1 ↔ (check_pango_available sys o).1 = false) := by
  cases hb : (check_pango_available sys o).1 <;> simp [moduleMain, hb]

/-- Claim C10: availability is fully recoverable from the message: the probe
reports available exactly when the message is the fixed success string, and
the message is never empty. -/
theorem c10_available_iff_success_message (sys : String) (o : LoadOutcome) :
    ((check_pango_available sys o).1 = true ↔
      (check_pango_available sys o).2 = successMessage) ∧
    (check_pango_available sys o).2 ≠ "" := by
  cases o with
  | success =>
    refine ⟨⟨fun _ => rfl, fun _ => rfl⟩, ?_⟩
    show successMessage ≠ ""
    exact ne_empty_of_headChar successMessage '✓' (by decide)
  | osError e =>
    cases hc : (strContainsSub (strLower e) "gobject"
        || strContainsSub (strLower e) "pango"
        || strContainsSub (strLower e) "gdk") with
    | true =>
      have hmsg : check_pango_available sys (LoadOutcome.osError e) =
          (false, pangoBoxHeader ++ _get_platform_specific_instructions sys
            ++ pangoBoxFooter) := by
        have hd := hc
        rw [Bool.or_eq_true, Bool.or_eq_true] at hd
        rcases hd with (h1 | h2) | h3
        · simp [check_pango_available, h1]
        · simp [check_pango_available, h2]
        · simp [check_pango_available, h3]
      rw [hmsg]
      refine ⟨⟨fun hft => absurd hft (by simp), fun hm => absurd hm ?_⟩, ?_⟩
      · exact headChar_ne_success _ '\u2554' (boxMessage_headChar sys) (by decide)
      · exact ne_empty_of_headChar _ '\u2554' (boxMessage_headChar sys)
    | false =>
      have hc' := hc
      simp [Bool.or_eq_false_iff] at hc'
      obtain ⟨⟨h1, h2⟩, h3⟩ := hc'
      have hmsg : check_pango_available sys (LoadOutcome.osError e) =
          (false, loadFailMsgHead ++ e) := by
        simp [check_pango_available, h1, h2, h3]
      have hhead : strHeadChar (loadFailMsgHead ++ e) = some '⚠' :=
        headChar_append loadFailMsgHead e '⚠' (by decide)
      rw [hmsg]
      refine ⟨⟨fun hft => absurd hft (by simp), fun hm => absurd hm ?_⟩, ?_⟩
      · exact headChar_ne_success _ '⚠' hhead (by decide)
      · exact ne_empty_of_headChar _ '⚠' hhead
  | importError e =>
    refine ⟨⟨fun hft => absurd hft (by simp [check_pango_available]),
      fun hm => absurd hm ?_⟩, ?_⟩
    · show weasyprintMissingMessage ≠ successMessage
      exact headChar_ne_success _ '⚠' (by decide) (by decide)
    · show weasyprintMissingMessage ≠ ""
      exact ne_empty_of_headChar _ '⚠' (by decide)
  | otherError e =>
    have hhead : strHeadChar (unknownFailMsgHead ++ e) = some '⚠' :=
      headChar_append unknownFailMsgHead e '⚠' (by decide)
    refine ⟨⟨fun hft => absurd hft (by simp [check_pango_available]),
      fun hm => absurd hm ?_⟩, ?_⟩
    · show unknownFailMsgHead ++ e ≠ successMessage
      exact headChar_ne_success _ '⚠' hhead (by decide)
    · show unknownFailMsgHead ++ e ≠ ""
      exact ne_empty_of_headChar _ '⚠' hhead

end DependencyCheck
